import Mathlib

/-!
Shallow embedding of the OAuth popup coordinator embedded in
`src/autogpt_platform/frontend/src/components/integrations/credentials-input.tsx`.

The coordinator lives in `handleOAuthLogin` (lines 185-272) with its inner
`handleMessage` listener (lines 208-256); the surrounding component also has a
deselection effect (lines 141-149) and a select-change handler
`handleValueChange` (lines 354-371).  React state setters become explicit
fields of `CoordState`; the browser substrate (window open, message delivery,
the timer, `AbortController`) becomes explicit inputs and step functions; the
two backend calls become `Except`-valued parameters.
-/

/-- A credential as returned by the `oAuthCallback` code-exchange collaborator:
the component reads its `id` and `title` fields (lines 237-240). -/
structure Credential where
  id : String
  title : String
deriving Repr, DecidableEq

/-- The value the component passes to `onSelectCredentials`.  The saved-
credential select path (lines 364-369) passes no `title` (it is commented
out in the source), so the field is optional. -/
structure CredentialsMetaInput where
  id : String
  type : String
  title : Option String := none
  provider : String
deriving Repr, DecidableEq

/-- `OAuthPopupResultMessage` (lines 99-109): a union tagged by `success`,
under the fixed discriminator `message_type = "oauth_popup_result"`. -/
inductive OAuthPopupResult where
  | success (code state : String)
  | failure (message : String)
deriving Repr, DecidableEq

/-- An incoming cross-window message as seen by the listener: either it carries
the `oauth_popup_result` discriminator (`result`) or it is an unrelated
message (`other`), which the guard at lines 210-217 ignores. -/
inductive MsgData where
  | other
  | result (r : OAuthPopupResult)
deriving Repr, DecidableEq

/-- One login attempt ("AuthSession"): the captured `state_token`, the popup
window handle (`popupOpen`), the `AbortController` (`abortReason`, `none`
while the controller is live), and the pending 5-minute `setTimeout`
(`timerArmed`).  The message listener is registered with the controller's
signal (lines 259-261), so it is active exactly while `abortReason = none`. -/
structure Session where
  state_token : String
  popupOpen : Bool
  abortReason : Option String
  timerArmed : Bool
deriving Repr, DecidableEq

/-- Component state relevant to the handshake: `oAuthError`,
`isOAuth2FlowInProgress`, the stored `oAuthPopupController` (an index into
`sessions`) and every session created so far (lines 126-135).  `provider`
comes from the credential directory and is fixed for the widget. -/
structure CoordState where
  provider : String
  oAuthError : Option String
  inProgress : Bool
  controller : Option Nat
  sessions : List Session
deriving Repr, DecidableEq

/-- The initial (idle) component state. -/
def initState (provider : String) : CoordState :=
  { provider := provider, oAuthError := none, inProgress := false,
    controller := none, sessions := [] }

/-- `AbortController.abort`: aborting an already-aborted controller is a
no-op; otherwise the `signal.onabort` handler (lines 202-206) runs, closing
the popup.  The listener registered with the signal is removed. -/
def Session.abort (s : Session) (reason : String) : Session :=
  if s.abortReason.isSome then s
  else { s with abortReason := some reason, popupOpen := false }

/-- Abort session `i`'s controller.  The `onabort` handler also clears the
in-progress flag (line 204). -/
def abortSession (st : CoordState) (i : Nat) (reason : String) : CoordState :=
  match st.sessions[i]? with
  | none => st
  | some s =>
    if s.abortReason.isSome then st
    else { st with sessions := st.sessions.set i (s.abort reason),
                   inProgress := false }

/-- The response of `api.oAuthLogin(provider, scopes)` (line 187). -/
structure LoginResponse where
  login_url : String
  state_token : String
deriving Repr, DecidableEq

/-- The exceptions `handleOAuthLogin` can throw: a failed `oAuthLogin` network
call propagates (line 187), and a null popup handle throws the
popup-blocked error (lines 194-198). -/
inductive LoginError where
  | authRequest (e : String)
  | popupBlocked
deriving Repr, DecidableEq

/-- The delay of the timeout armed at session start (line 270): 5 minutes. -/
def oauthTimeoutMs : Nat := 5 * 60 * 1000

/-- `handleOAuthLogin` (lines 185-272).  Environment inputs: the outcome of
`api.oAuthLogin` and whether `window.open` returns a handle.  Returns the
state after the call together with the error thrown, if any.  Mirrors the
source order: clear `oAuthError`, await the login URL (a failure propagates
here), set the in-progress flag, open the popup (throw if blocked), create
and store the controller, register the listener, arm the timer. -/
def handleOAuthLogin (st : CoordState) (loginResult : Except String LoginResponse)
    (popupOpens : Bool) : CoordState × Option LoginError :=
  let st0 := { st with oAuthError := none }
  match loginResult with
  | .error e => (st0, some (.authRequest e))
  | .ok resp =>
    let st1 := { st0 with inProgress := true }
    if popupOpens then
      let s : Session :=
        { state_token := resp.state_token, popupOpen := true,
          abortReason := none, timerArmed := true }
      ({ st1 with sessions := st1.sessions ++ [s],
                  controller := some st1.sessions.length }, none)
    else
      (st1, some .popupBlocked)

/-- Deliver a cross-window message to session `i`'s listener (`handleMessage`,
lines 208-256).  The listener only runs while the session's controller is not
aborted (it was registered with the abort signal).  `exchange` is the
`oAuthCallback` collaborator; the returned option is the credential meta the
success path hands to `onSelectCredentials` (lines 237-242), if any. -/
def deliverMessage (st : CoordState) (i : Nat) (m : MsgData)
    (exchange : String → String → Except String Credential) :
    CoordState × Option CredentialsMetaInput :=
  match st.sessions[i]? with
  | none => (st, none)
  | some s =>
    if s.abortReason.isSome then (st, none)
    else
      match m with
      | .other => (st, none)
      | .result (.failure msg) =>
        ({ st with oAuthError := some ("OAuth flow failed: " ++ msg),
                   inProgress := false }, none)
      | .result (.success code state) =>
        if state ≠ s.state_token then
          ({ st with oAuthError := some "Invalid state token received",
                     inProgress := false }, none)
        else
          match exchange code state with
          | .ok cred =>
            (abortSession st i "success",
             some { id := cred.id, type := "oauth2", title := some cred.title,
                    provider := st.provider })
          | .error e =>
            (abortSession
              { st with oAuthError := some ("Error in OAuth callback: " ++ e) }
              i "success", none)

/-- The 5-minute timer callback (lines 263-271): abort the controller with
reason `timeout`, clear the in-progress flag, set the timeout error message.
Firing spends the timer. -/
def fireTimer (st : CoordState) (i : Nat) : CoordState :=
  let st1 := abortSession st i "timeout"
  let st2 := { st1 with inProgress := false,
                        oAuthError := some "OAuth flow timed out" }
  match st2.sessions[i]? with
  | none => st2
  | some s => { st2 with sessions := st2.sessions.set i { s with timerArmed := false } }

/-- The waiting-modal `onClose` handler (line 292): abort the stored popup
controller with reason `canceled`, if one is stored. -/
def cancelLogin (st : CoordState) : CoordState :=
  match st.controller with
  | none => st
  | some i => abortSession st i "canceled"

/-- A saved credential as supplied by the credential directory. -/
structure SavedCredential where
  id : String
  type : String
  title : String
  username : String
deriving Repr, DecidableEq

/-- The outcome of `handleValueChange` (lines 354-371).  `derefFailure` models
the runtime type error raised when `savedCredentials.find(...)!` yields
`undefined` and its fields are then read. -/
inductive ValueChangeResult where
  | startOAuth
  | openApiKeyModal
  | selectSaved (c : CredentialsMetaInput)
  | derefFailure
deriving Repr, DecidableEq

/-- `handleValueChange` (lines 354-371): special-cases `"sign-in"` and
`"add-api-key"`, and otherwise looks the value up among saved credential ids
and dereferences the result unconditionally. -/
def handleValueChange (savedCredentials : List SavedCredential)
    (provider : String) (newValue : String) : ValueChangeResult :=
  if newValue = "sign-in" then .startOAuth
  else if newValue = "add-api-key" then .openApiKeyModal
  else
    match savedCredentials.find? (fun c => c.id == newValue) with
    | some c => .selectSaved { id := c.id, type := c.type, provider := provider }
    | none => .derefFailure

/-- The `value`s of the items the select offers when saved credentials exist
(lines 383-427): the saved credentials grouped by type, then `"sign-in"`,
`"add-api-key"` and `"add-user-password"` gated on the capability flags. -/
def selectOptions (savedCredentials : List SavedCredential)
    (supportsOAuth2 supportsApiKey supportsUserPassword : Bool) : List String :=
  (savedCredentials.filter (fun c => c.type == "oauth2")).map (fun c => c.id) ++
  (savedCredentials.filter (fun c => c.type == "api_key")).map (fun c => c.id) ++
  (savedCredentials.filter (fun c => c.type == "user_password")).map (fun c => c.id) ++
  (if supportsOAuth2 then ["sign-in"] else []) ++
  (if supportsApiKey then ["add-api-key"] else []) ++
  (if supportsUserPassword then ["add-user-password"] else [])

/-- The deselection effect (lines 141-149): given the directory state (`none`
while `savedCredentials` is not yet available) and the current selection,
the selection after the effect runs: it emits `onSelectCredentials(undefined)`
when the selected id is absent from the saved list. -/
def deselectEffect (savedCredentials : Option (List SavedCredential))
    (selected : Option CredentialsMetaInput) : Option CredentialsMetaInput :=
  match savedCredentials with
  | none => selected
  | some saved =>
    match selected with
    | none => none
    | some sel => if saved.any (fun c => c.id == sel.id) then some sel else none

/-- A constant-success `oAuthCallback` collaborator. -/
def exchangeOk (cred : Credential) : String → String → Except String Credential :=
  fun _ _ => .ok cred

/-- A constant-failure `oAuthCallback` collaborator. -/
def exchangeFail (e : String) : String → String → Except String Credential :=
  fun _ _ => .error e

/-- The state right after a successful `handleOAuthLogin` with login URL
`https://x` and state token `abc` on provider `github`. -/
def stStart : CoordState :=
  (handleOAuthLogin (initState "github") (Except.ok ⟨"https://x", "abc"⟩) true).1

/-- The session created by `stStart`. -/
def sessionStart : Session :=
  { state_token := "abc", popupOpen := true, abortReason := none, timerArmed := true }

/-- The state after `stStart` receives a remote-failure message. -/
def stAfterFailureMsg : CoordState :=
  (deliverMessage stStart 0 (.result (.failure "denied")) (exchangeOk ⟨"cred1", "u1"⟩)).1

/-- The state after `stStart` resolves successfully via a state-matching
success message and a successful exchange. -/
def stResolved : CoordState :=
  (deliverMessage stStart 0 (.result (.success "c1" "abc")) (exchangeOk ⟨"cred1", "u1"⟩)).1

/-- Claim C8: on the happy path — `startLogin` on `github`, API returning
login URL `https://x` and state token `abc`, a success message with code `c1`
and state `abc`, and the exchange returning credential `cred1` titled `u1` —
the caller receives exactly id `cred1`, type `oauth2`, title `u1`, provider
`github`. -/
theorem happy_path_scenario :
    (deliverMessage stStart 0 (.result (.success "c1" "abc"))
        (exchangeOk ⟨"cred1", "u1"⟩)).2
      = some { id := "cred1", type := "oauth2", title := some "u1",
               provider := "github" } := by
  rfl

/-- Claim C1: a success-tagged message whose `state` differs from the
session's `state_token` makes the coordinator report the state-mismatch error,
report no credential, and make no code-exchange call (the outcome is the same
for every exchange collaborator), for any pair of state strings. -/
theorem stateMismatch_reports_error_no_exchange
    (st : CoordState) (i : Nat) (s : Session)
    (hs : st.sessions[i]? = some s) (hlive : s.abortReason = none)
    (code state : String) (hne : state ≠ s.state_token)
    (ex ex' : String → String → Except String Credential) :
    (deliverMessage st i (.result (.success code state)) ex).2 = none ∧
    (deliverMessage st i (.result (.success code state)) ex).1.oAuthError
      = some "Invalid state token received" ∧
    deliverMessage st i (.result (.success code state)) ex
      = deliverMessage st i (.result (.success code state)) ex' := by
  simp [deliverMessage, hs, hlive, hne]

/-- Witness for C1: concrete run with state token `abc` and message state
`wrong`. -/
theorem stateMismatch_reports_error_no_exchange_witness :
    (deliverMessage stStart 0 (.result (.success "c1" "wrong"))
        (exchangeOk ⟨"cred1", "u1"⟩)).2 = none ∧
    (deliverMessage stStart 0 (.result (.success "c1" "wrong"))
        (exchangeOk ⟨"cred1", "u1"⟩)).1.oAuthError
      = some "Invalid state token received" ∧
    deliverMessage stStart 0 (.result (.success "c1" "wrong"))
        (exchangeOk ⟨"cred1", "u1"⟩)
      = deliverMessage stStart 0 (.result (.success "c1" "wrong"))
        (exchangeFail "net") :=
  stateMismatch_reports_error_no_exchange stStart 0 sessionStart (by rfl) rfl
    "c1" "wrong" (by decide) (exchangeOk ⟨"cred1", "u1"⟩) (exchangeFail "net")

/-- Claim C2 counterexample: after the remote-failure terminal state the
listener is still active (the session is never aborted on that path), so a
further valid success message does produce a callback invocation; and after a
successful resolution the 5-minute timer is still armed (it is never
cleared). -/
theorem terminal_cleanup_counterexample :
    (stAfterFailureMsg.sessions[0]?).map Session.abortReason = some none ∧
    (deliverMessage stAfterFailureMsg 0 (.result (.success "c1" "abc"))
        (exchangeOk ⟨"cred1", "u1"⟩)).2
      = some { id := "cred1", type := "oauth2", title := some "u1",
               provider := "github" } ∧
    (stResolved.sessions[0]?).map Session.timerArmed = some true := by
  refine ⟨rfl, rfl, rfl⟩

/-- Claim C2 (amended): once a session's controller is aborted (as happens on
the success-message path, on timeout and on cancellation) its listener is
deactivated, so delivering any further message — in particular another valid
success message — changes nothing and produces no callback; the
success-message path does abort the session.  However, a remote-failure
message leaves the session untouched (listener active, popup open), and no
path clears the 5-minute timer: it stays armed even after resolution. -/
theorem cleanup_after_abort_amended :
    (∀ (st : CoordState) (i : Nat) (s : Session) (m : MsgData)
        (ex : String → String → Except String Credential),
      st.sessions[i]? = some s → s.abortReason.isSome →
      deliverMessage st i m ex = (st, none)) ∧
    (∀ (st : CoordState) (i : Nat) (s : Session) (code : String)
        (cred : Credential) (ex : String → String → Except String Credential),
      st.sessions[i]? = some s → s.abortReason = none →
      ex code s.state_token = .ok cred →
      ((deliverMessage st i (.result (.success code s.state_token)) ex).1.sessions[i]?)
        = some { s with abortReason := some "success", popupOpen := false }) ∧
    (∀ (st : CoordState) (i : Nat) (s : Session) (msg : String)
        (ex : String → String → Except String Credential),
      st.sessions[i]? = some s → s.abortReason = none →
      ((deliverMessage st i (.result (.failure msg)) ex).1.sessions[i]?) = some s) := by
  refine ⟨?_, ?_, ?_⟩
  · intro st i s m ex hs habort
    simp only [deliverMessage, hs]
    simp [habort]
  · intro st i s code cred ex hs hlive hex
    obtain ⟨hlen, -⟩ := List.getElem?_eq_some.mp hs
    simp only [deliverMessage, hs, hlive, Option.isSome_none, Bool.false_eq_true,
      if_false, ne_eq, not_true_eq_false, hex]
    simp [abortSession, hs, hlive, Session.abort,
      List.getElem?_set_eq_of_lt _ hlen]
  · intro st i s msg ex hs hlive
    simp [deliverMessage, hs, hlive]

/-- Witness for the amended C2: delivering a second valid success message to
the already-resolved concrete state is a no-op with no callback. -/
theorem cleanup_after_abort_amended_witness :
    deliverMessage stResolved 0 (.result (.success "c2" "abc"))
        (exchangeOk ⟨"cred2", "u2"⟩) = (stResolved, none) :=
  cleanup_after_abort_amended.1 stResolved 0
    { state_token := "abc", popupOpen := false, abortReason := some "success",
      timerArmed := true }
    (.result (.success "c2" "abc")) (exchangeOk ⟨"cred2", "u2"⟩) (by rfl) (by decide)

/-- Claim C3 counterexample: after a remote-failure message arrives the popup
is still open and the controller is not aborted (so the listener is still
registered) — the session was not cancelled, even though the error text was
reported. -/
theorem remote_failure_no_cancel_counterexample :
    (stAfterFailureMsg.sessions[0]?).map Session.popupOpen = some true ∧
    (stAfterFailureMsg.sessions[0]?).map Session.abortReason = some none ∧
    stAfterFailureMsg.oAuthError = some "OAuth flow failed: denied" := by
  refine ⟨rfl, rfl, rfl⟩

/-- Claim C3 (amended): a correctly tagged failure message makes the
coordinator report the OAuth-failed error carrying the remote message text and
clear the in-progress flag, with no credential reported — but it does not
cancel the session: the sessions (popup handle, controller, listener, timer)
are left exactly as they were. -/
theorem remote_failure_reports_error_amended
    (st : CoordState) (i : Nat) (s : Session)
    (hs : st.sessions[i]? = some s) (hlive : s.abortReason = none)
    (msg : String) (ex : String → String → Except String Credential) :
    deliverMessage st i (.result (.failure msg)) ex
      = ({ st with oAuthError := some ("OAuth flow failed: " ++ msg),
                   inProgress := false }, none) := by
  simp [deliverMessage, hs, hlive]

/-- Witness for the amended C3: the concrete remote-failure delivery. -/
theorem remote_failure_reports_error_amended_witness :
    deliverMessage stStart 0 (.result (.failure "denied"))
        (exchangeOk ⟨"cred1", "u1"⟩)
      = ({ stStart with oAuthError := some ("OAuth flow failed: " ++ "denied"),
                        inProgress := false }, none) :=
  remote_failure_reports_error_amended stStart 0 sessionStart (by rfl) rfl
    "denied" (exchangeOk ⟨"cred1", "u1"⟩)

/-- The state after a second successful `handleOAuthLogin` invoked on top of
the still-live first session of `stStart`. -/
def stTwoLogins : CoordState :=
  (handleOAuthLogin stStart (Except.ok ⟨"https://y", "xyz"⟩) true).1

/-- Claim C4 counterexample: invoking `handleOAuthLogin` while a session is
already live creates a second concurrent session — two live sessions exist
afterwards (two popups, two listeners), and the stored controller points only
at the newest one. -/
theorem second_login_counterexample :
    stTwoLogins.sessions.length = 2 ∧
    (stTwoLogins.sessions[0]?).map Session.abortReason = some none ∧
    (stTwoLogins.sessions[1]?).map Session.abortReason = some none ∧
    stTwoLogins.controller = some 1 := by
  refine ⟨rfl, rfl, rfl, rfl⟩

/-- Claim C4 (amended): `handleOAuthLogin` has no reentrancy guard: whenever
the login request succeeds and the popup opens it appends a fresh live
session, leaving every existing session exactly as it was, and repoints the
stored controller at the new session — so invoking it while a session is
already active does create a second concurrent session. -/
theorem login_appends_live_session_amended (st : CoordState) (resp : LoginResponse) :
    (handleOAuthLogin st (.ok resp) true).1.sessions
      = st.sessions ++ [{ state_token := resp.state_token, popupOpen := true,
                          abortReason := none, timerArmed := true }] ∧
    (handleOAuthLogin st (.ok resp) true).1.controller
      = some st.sessions.length := by
  exact ⟨rfl, rfl⟩

/-- Witness for the amended C4: the concrete double login. -/
theorem login_appends_live_session_amended_witness :
    stTwoLogins.sessions
      = stStart.sessions ++ [{ state_token := "xyz", popupOpen := true,
                               abortReason := none, timerArmed := true }] ∧
    stTwoLogins.controller = some stStart.sessions.length :=
  login_appends_live_session_amended stStart ⟨"https://y", "xyz"⟩

/-- Claim C5 counterexample: when `window.open` yields no handle the
popup-blocked error is thrown and no session or controller exists, but the
coordinator IS left in the in-progress state: `setOAuth2FlowInProgress(true)`
ran before the popup was opened and nothing resets it on this path. -/
theorem popup_blocked_counterexample :
    handleOAuthLogin (initState "github") (.ok ⟨"https://x", "abc"⟩) false
      = ({ provider := "github", oAuthError := none, inProgress := true,
           controller := none, sessions := [] }, some .popupBlocked) := by
  rfl

/-- Claim C5 (amended): if the child window cannot be opened,
`handleOAuthLogin` throws the popup-blocked error immediately and creates no
session — no listener is registered, no timer armed, no abort controller
stored (sessions and controller are unchanged) — but the in-progress flag was
already set and remains `true`. -/
theorem popup_blocked_no_session_amended
    (st : CoordState) (resp : LoginResponse) :
    handleOAuthLogin st (.ok resp) false
      = ({ st with oAuthError := none, inProgress := true },
         some .popupBlocked) := by
  rfl

/-- Witness for the amended C5: concrete blocked popup. -/
theorem popup_blocked_no_session_amended_witness :
    handleOAuthLogin (initState "notion") (.ok ⟨"https://n", "tok"⟩) false
      = ({ initState "notion" with oAuthError := none, inProgress := true },
         some .popupBlocked) :=
  popup_blocked_no_session_amended (initState "notion") ⟨"https://n", "tok"⟩

/-- Claim C6: a 5-minute timeout is armed at session start (the session is
created with its timer armed, with delay 5 times 60 times 1000 ms), and if the
session has not been resolved when the timer fires, firing aborts the
controller with reason `timeout` (closing the popup and removing the
listener), clears the in-progress flag, and reports the timeout error. -/
theorem timeout_armed_and_fires :
    oauthTimeoutMs = 5 * 60 * 1000 ∧
    (∀ (st : CoordState) (resp : LoginResponse),
      ((handleOAuthLogin st (.ok resp) true).1.sessions[st.sessions.length]?).map
        Session.timerArmed = some true) ∧
    (∀ (st : CoordState) (i : Nat) (s : Session),
      st.sessions[i]? = some s → s.abortReason = none →
      (fireTimer st i).sessions[i]?
          = some { s with abortReason := some "timeout", popupOpen := false,
                          timerArmed := false } ∧
        (fireTimer st i).oAuthError = some "OAuth flow timed out" ∧
        (fireTimer st i).inProgress = false) := by
  refine ⟨rfl, ?_, ?_⟩
  · intro st resp
    simp [handleOAuthLogin, List.getElem?_concat_length]
  · intro st i s hs hlive
    obtain ⟨hlen, -⟩ := List.getElem?_eq_some.mp hs
    have habort : (fireTimer st i).sessions[i]?
        = some { s with abortReason := some "timeout", popupOpen := false,
                        timerArmed := false } := by
      simp [fireTimer, abortSession, hs, hlive, Session.abort,
        List.getElem?_set_eq_of_lt _ hlen, List.set_set]
    refine ⟨habort, ?_, ?_⟩ <;>
      simp [fireTimer, abortSession, hs, hlive, Session.abort,
        List.getElem?_set_eq_of_lt _ hlen]

/-- Witness for C6: the concrete session of `stStart` times out. -/
theorem timeout_armed_and_fires_witness :
    (fireTimer stStart 0).sessions[0]?
        = some { state_token := "abc", popupOpen := false,
                 abortReason := some "timeout", timerArmed := false } ∧
      (fireTimer stStart 0).oAuthError = some "OAuth flow timed out" ∧
      (fireTimer stStart 0).inProgress = false :=
  (timeout_armed_and_fires.2.2) stStart 0 sessionStart (by rfl) rfl

/-- Claim C7: on a state-matching success message whose code exchange fails,
the coordinator reports the callback-exchange error preserving the underlying
cause, reports no credential, and still aborts the session with reason
`success`, closing the popup and clearing the in-progress flag. -/
theorem exchange_failure_reports_and_cancels
    (st : CoordState) (i : Nat) (s : Session)
    (hs : st.sessions[i]? = some s) (hlive : s.abortReason = none)
    (code e : String) (ex : String → String → Except String Credential)
    (hex : ex code s.state_token = .error e) :
    (deliverMessage st i (.result (.success code s.state_token)) ex).2 = none ∧
    (deliverMessage st i (.result (.success code s.state_token)) ex).1.oAuthError
      = some ("Error in OAuth callback: " ++ e) ∧
    ((deliverMessage st i (.result (.success code s.state_token)) ex).1.sessions[i]?)
      = some { s with abortReason := some "success", popupOpen := false } ∧
    (deliverMessage st i (.result (.success code s.state_token)) ex).1.inProgress
      = false := by
  obtain ⟨hlen, -⟩ := List.getElem?_eq_some.mp hs
  simp only [deliverMessage, hs, hlive, Option.isSome_none, Bool.false_eq_true,
    if_false, ne_eq, not_true_eq_false, hex]
  simp [abortSession, hs, hlive, Session.abort,
    List.getElem?_set_eq_of_lt _ hlen]

/-- Witness for C7: concrete failing exchange on the live session. -/
theorem exchange_failure_reports_and_cancels_witness :
    (deliverMessage stStart 0 (.result (.success "c1" "abc"))
        (exchangeFail "boom")).2 = none ∧
    (deliverMessage stStart 0 (.result (.success "c1" "abc"))
        (exchangeFail "boom")).1.oAuthError
      = some ("Error in OAuth callback: " ++ "boom") ∧
    ((deliverMessage stStart 0 (.result (.success "c1" "abc"))
        (exchangeFail "boom")).1.sessions[0]?)
      = some { sessionStart with abortReason := some "success", popupOpen := false } ∧
    (deliverMessage stStart 0 (.result (.success "c1" "abc"))
        (exchangeFail "boom")).1.inProgress = false :=
  exchange_failure_reports_and_cancels stStart 0 sessionStart (by rfl) rfl
    "c1" "boom" (exchangeFail "boom") rfl

/-- Claim C9: whenever user/password is supported the select offers the value
`add-user-password`, but `handleValueChange` has no case for it: for any
saved-credential list containing no credential with that id, the lookup yields
nothing and the unguarded dereference is reached (`derefFailure`) instead of
the user-password modal being opened. -/
theorem add_user_password_deref_failure
    (saved : List SavedCredential) (provider : String) (o a : Bool)
    (h : ∀ c ∈ saved, c.id ≠ "add-user-password") :
    "add-user-password" ∈ selectOptions saved o a true ∧
    handleValueChange saved provider "add-user-password" = .derefFailure := by
  constructor
  · simp [selectOptions]
  · have hfind : saved.find? (fun c => c.id == "add-user-password") = none := by
      rw [List.find?_eq_none]
      intro c hc
      simpa using h c hc
    simp [handleValueChange, hfind]

/-- Witness for C9: a directory with one saved API key. -/
theorem add_user_password_deref_failure_witness :
    "add-user-password"
        ∈ selectOptions [⟨"cred9", "api_key", "t", "u"⟩] true true true ∧
    handleValueChange [⟨"cred9", "api_key", "t", "u"⟩] "github"
        "add-user-password" = .derefFailure :=
  add_user_password_deref_failure [⟨"cred9", "api_key", "t", "u"⟩] "github"
    true true (by decide)

/-- Claim C10: when the loaded saved-credential list does not contain the
selected credential's id, the deselection effect emits
`onSelectCredentials(undefined)`; consequently any selection that survives the
effect after a directory update is an element of the saved list. -/
theorem deselect_invariant (saved : List SavedCredential) :
    (∀ sel : CredentialsMetaInput, (∀ c ∈ saved, c.id ≠ sel.id) →
      deselectEffect (some saved) (some sel) = none) ∧
    (∀ (sel : Option CredentialsMetaInput) (c : CredentialsMetaInput),
      deselectEffect (some saved) sel = some c → ∃ cr ∈ saved, cr.id = c.id) := by
  constructor
  · intro sel h
    have hany : saved.any (fun c => c.id == sel.id) = false := by
      rw [List.any_eq_false]
      intro c hc
      simpa using h c hc
    simp [deselectEffect, hany]
  · intro sel c hsel
    cases sel with
    | none => simp [deselectEffect] at hsel
    | some s =>
      by_cases hany : saved.any (fun cr => cr.id == s.id) = true
      · have hsc : s = c := by simpa [deselectEffect, hany] using hsel
        subst hsc
        simpa [List.any_eq_true] using hany
      · simp [deselectEffect, hany] at hsel

/-- Witness for C10: a selection whose id is absent from the directory is
deselected. -/
theorem deselect_invariant_witness :
    deselectEffect (some [⟨"cred9", "api_key", "t", "u"⟩])
        (some { id := "gone", type := "api_key", provider := "github" }) = none :=
  (deselect_invariant [⟨"cred9", "api_key", "t", "u"⟩]).1
    { id := "gone", type := "api_key", provider := "github" } (by decide)
